import Mathlib

/-!
Shallow embedding of the web3-signer API's authentication core
(apps/api/src/routes/auth.ts, utils/signature.ts, middleware/auth.ts),
together with proofs about the specified properties of the Auth State
Machine, the Signature Verifier and the MFA Secret Deriver.
-/

namespace Web3Signer

/-! ## String primitives (JavaScript `toLowerCase` on ASCII input) -/

/-- ASCII lower-casing of a single character, as JavaScript
`String.prototype.toLowerCase` behaves on ASCII code points
(wallet addresses and the fixed literals used by the routes are ASCII). -/
def lowerChar (c : Char) : Char :=
  if 65 ≤ c.toNat ∧ c.toNat ≤ 90 then Char.ofNat (c.toNat + 32) else c

/-- JavaScript `s.toLowerCase()` on ASCII strings. -/
def toLowerCase (s : String) : String :=
  ⟨s.data.map lowerChar⟩

theorem toNat_ofNat_valid (n : Nat) (h : Nat.isValidChar n) : (Char.ofNat n).toNat = n := by
  simp [Char.ofNat, h, Char.ofNatAux, Char.toNat, UInt32.toNat, BitVec.toNat_ofNatLt]

theorem lowerChar_idem (c : Char) : lowerChar (lowerChar c) = lowerChar c := by
  unfold lowerChar
  by_cases h : 65 ≤ c.toNat ∧ c.toNat ≤ 90
  · have hv : Nat.isValidChar (c.toNat + 32) := by
      left; omega
    simp [h, toNat_ofNat_valid _ hv]
    omega
  · simp [h]

theorem toLowerCase_idem (s : String) : toLowerCase (toLowerCase s) = toLowerCase s := by
  unfold toLowerCase
  simp only [List.map_map]
  congr 1
  exact List.map_congr_left (fun c _ => lowerChar_idem c)

/-! ## SHA-256 (Node `crypto.createHash('sha256')`, hex digest)

The routes feed the hash ASCII strings, for which the UTF-8 byte encoding
is the code-point sequence. -/

/-- Byte sequence of an ASCII string (UTF-8 coincides with code points). -/
def strBytes (s : String) : List Nat :=
  s.data.map Char.toNat

def wrap32 (n : Nat) : Nat := n % 4294967296

def rotr32 (k x : Nat) : Nat := ((x >>> k) ||| (x <<< (32 - k))) % 4294967296

/-- Big-endian byte serialization of `n` into `k` bytes. -/
def bytesBE (k n : Nat) : List Nat :=
  (List.range k).map (fun i => (n >>> (8 * (k - 1 - i))) % 256)

/-- SHA-256 message padding: append 0x80, zeros, and the 64-bit bit length. -/
def padMessage (msg : List Nat) : List Nat :=
  msg ++ [128] ++ List.replicate ((119 - msg.length % 64) % 64) 0 ++ bytesBE 8 (8 * msg.length)

/-- Group bytes into big-endian 32-bit words. -/
def toWordsBE : List Nat → List Nat
  | b0 :: b1 :: b2 :: b3 :: rest => (((b0 * 256 + b1) * 256 + b2) * 256 + b3) :: toWordsBE rest
  | _ => []

/-- Split a byte list into 64-byte chunks (fuel-based structural recursion;
`fuel = l.length` always suffices since each step drops at least one byte). -/
def chunksOf64Go : Nat → List Nat → List (List Nat)
  | _, [] => []
  | 0, _ :: _ => []
  | fuel + 1, x :: rest => (x :: rest).take 64 :: chunksOf64Go fuel ((x :: rest).drop 64)

/-- Split a byte list into 64-byte chunks. -/
def chunksOf64 (l : List Nat) : List (List Nat) :=
  chunksOf64Go l.length l

/-- SHA-256 round constants. -/
def sha256K : List Nat :=
  [1116352408, 1899447441, 3049323471, 3921009573, 961987163,
   1508970993, 2453635748, 2870763221, 3624381080, 310598401,
   607225278, 1426881987, 1925078388, 2162078206, 2614888103,
   3248222580, 3835390401, 4022224774, 264347078, 604807628,
   770255983, 1249150122, 1555081692, 1996064986, 2554220882,
   2821834349, 2952996808, 3210313671, 3336571891, 3584528711,
   113926993, 338241895, 666307205, 773529912, 1294757372,
   1396182291, 1695183700, 1986661051, 2177026350, 2456956037,
   2730485921, 2820302411, 3259730800, 3345764771, 3516065817,
   3600352804, 4094571909, 275423344, 430227734, 506948616,
   659060556, 883997877, 958139571, 1322822218, 1537002063,
   1747873779, 1955562222, 2024104815, 2227730452, 2361852424,
   2428436474, 2756734187, 3204031479, 3329325298]

/-- SHA-256 initial hash values. -/
def sha256InitH : List Nat :=
  [1779033703, 3144134277, 1013904242, 2773480762, 1359893119,
   2600822924, 528734635, 1541459225]

/-- Extend the 16 chunk words to the 64-entry message schedule. -/
def extendWords (w16 : List Nat) : List Nat :=
  (List.range 48).foldl
    (fun w _ =>
      let i := w.length
      let w15 := w.getD (i - 15) 0
      let w2 := w.getD (i - 2) 0
      let s0 := (rotr32 7 w15) ^^^ (rotr32 18 w15) ^^^ (w15 >>> 3)
      let s1 := (rotr32 17 w2) ^^^ (rotr32 19 w2) ^^^ (w2 >>> 10)
      w ++ [wrap32 (w.getD (i - 16) 0 + s0 + w.getD (i - 7) 0 + s1)])
    w16

/-- One SHA-256 compression round step on the eight working registers. -/
def sha256Round (st : List Nat) (kw : Nat) : List Nat :=
  match st with
  | [a, b, c, d, e, f, g, h] =>
    let s1 := (rotr32 6 e) ^^^ (rotr32 11 e) ^^^ (rotr32 25 e)
    let ch := (e &&& f) ^^^ ((4294967295 - e) &&& g)
    let temp1 := wrap32 (h + s1 + ch + kw)
    let s0 := (rotr32 2 a) ^^^ (rotr32 13 a) ^^^ (rotr32 22 a)
    let maj := (a &&& b) ^^^ (a &&& c) ^^^ (b &&& c)
    let temp2 := wrap32 (s0 + maj)
    [wrap32 (temp1 + temp2), a, b, c, wrap32 (d + temp1), e, f, g]
  | st => st

/-- Compress one 64-byte chunk into the running hash state. -/
def sha256Compress (h : List Nat) (chunk : List Nat) : List Nat :=
  let w := extendWords (toWordsBE chunk)
  let kw := (sha256K.zip w).map (fun p => wrap32 (p.1 + p.2))
  let out := kw.foldl sha256Round h
  (h.zip out).map (fun p => wrap32 (p.1 + p.2))

/-- SHA-256 digest (32 bytes) of a byte sequence. -/
def sha256bytes (msg : List Nat) : List Nat :=
  ((chunksOf64 (padMessage msg)).foldl sha256Compress sha256InitH).map (bytesBE 4) |>.flatten

def hexDigitChars : List Char := "0123456789abcdef".data

/-- Two lower-case hex characters for one byte. -/
def byteToHex (b : Nat) : List Char :=
  [hexDigitChars.getD (b / 16 % 16) '0', hexDigitChars.getD (b % 16) '0']

/-- Hex digest of the SHA-256 hash of a string, as produced by
`crypto.createHash('sha256').update(input).digest('hex')`. -/
def sha256hex (s : String) : String :=
  ⟨((sha256bytes (strBytes s)).map byteToHex).flatten⟩

/-! ## MFA Secret Deriver (generateMFASecret in auth.ts) -/

def base32Chars : List Char := "ABCDEFGHIJKLMNOPQRSTUVWXYZ234567".data

/-- Numeric value of a hex digit character (the digest is always hex). -/
def hexVal (c : Char) : Nat :=
  if 48 ≤ c.toNat ∧ c.toNat ≤ 57 then c.toNat - 48
  else if 97 ≤ c.toNat ∧ c.toNat ≤ 102 then c.toNat - 87
  else if 65 ≤ c.toNat ∧ c.toNat ≤ 70 then c.toNat - 55
  else 0

/-- generateMFASecret from auth.ts: hash `"{lowercaseAddress}:{salt}"` with
SHA-256 and map each successive pair of hex digits (one digest byte) through
`byte % 32` into the base32 alphabet, producing 32 characters.  The server
salt read from the environment is passed explicitly. -/
def generateMFASecret (salt : String) (address : String) : String :=
  let normalizedAddress := toLowerCase address
  let input := normalizedAddress ++ ":" ++ salt
  let hash := (sha256hex input).data
  ⟨(List.range 32).map (fun i =>
    let byte := hexVal (hash.getD (2 * i) '0') * 16 + hexVal (hash.getD (2 * i + 1) '0')
    base32Chars.getD (byte % 32) 'A')⟩

/-! ## TOTP comparator (otplib `authenticator`, external library)

Modelled from the spec: the RFC-6238 windowed comparator of the external
otplib library.  A code is abstracted as the (secret, time-step) pair it was
generated from; `verify` accepts a code iff it was generated from the same
secret at a step within `window` steps of the current step.  otplib keeps a
single mutable options object on the shared `authenticator` instance; its
default `window` is 0, and an assignment `authenticator.options = {window: 2}`
persists for the rest of the process, which the state below tracks. -/

structure TotpToken where
  secret : String
  step : Int
deriving Repr, DecidableEq

/-- Modelled from the spec: `authenticator.generate(secret)` at a time step. -/
def totpGenerate (secret : String) (step : Int) : TotpToken :=
  ⟨secret, step⟩

/-- Modelled from the spec: `authenticator.verify({token, secret})` under the
prevailing `window` option at time step `currentStep`. -/
def totpVerify (window : Nat) (currentStep : Int) (token : TotpToken) (secret : String) : Bool :=
  token.secret == secret && (currentStep - token.step).natAbs ≤ window

/-- otplib's default `window` option for the `authenticator` instance. -/
def defaultAuthenticatorWindow : Nat := 0

/-! ## Signature Verifier (utils/signature.ts)

The cryptographic recovery primitive (`ethers.hashMessage` followed by
`ethers.recoverAddress`) is an external collaborator; it is passed in as a
function returning the recovered address, or `none` when it throws on a
malformed signature. -/

/-- recoverAddress from utils/signature.ts: returns the recovered address or
propagates a distinct failure when the primitive throws. -/
def recoverAddress (ethersRecover : String → String → Option String)
    (message signature : String) : Except String String :=
  match ethersRecover message signature with
  | some addr => Except.ok addr
  | none => Except.error "Failed to recover address from signature"

/-- verifySignature from utils/signature.ts: recovery failures are caught and
turned into `false`; otherwise the recovered and expected addresses are
compared case-insensitively. -/
def verifySignature (ethersRecover : String → String → Option String)
    (message signature expectedAddress : String) : Bool :=
  match recoverAddress ethersRecover message signature with
  | Except.ok recovered => toLowerCase recovered == toLowerCase expectedAddress
  | Except.error _ => false

/-! ## Data model (prisma schema: users, auth, messages; express session) -/

structure User where
  id : Nat
  address : String
  role : String
deriving Repr, DecidableEq

structure AuthRecord where
  userId : Nat
  mfa : Bool
  awaitingMfa : Bool
  mfaTimeoutTimestamp : Option Int
deriving Repr, DecidableEq

structure MessageRecord where
  id : Nat
  userId : Nat
  message : String
  signature : String
  signer : String
  valid : Bool
  createdAt : Int
deriving Repr, DecidableEq

structure Db where
  users : List User
  auths : List AuthRecord
  messages : List MessageRecord
  nextUserId : Nat
deriving Repr, DecidableEq

def Db.findUserByAddress (db : Db) (addr : String) : Option User :=
  db.users.find? (fun u => u.address == addr)

def Db.findUserById (db : Db) (id : Nat) : Option User :=
  db.users.find? (fun u => u.id == id)

def Db.findAuthByUserId (db : Db) (userId : Nat) : Option AuthRecord :=
  db.auths.find? (fun a => a.userId == userId)

def Db.updateAuth (db : Db) (userId : Nat) (f : AuthRecord → AuthRecord) : Db :=
  { db with auths := db.auths.map (fun a => if a.userId == userId then f a else a) }

/-- Insertion step for sorting message records newest-first. -/
def insertByCreatedDesc (m : MessageRecord) : List MessageRecord → List MessageRecord
  | [] => [m]
  | x :: xs => if x.createdAt ≤ m.createdAt then m :: x :: xs else x :: insertByCreatedDesc m xs

def sortByCreatedDesc (l : List MessageRecord) : List MessageRecord :=
  l.foldr insertByCreatedDesc []

/-- The `messages: take 10, orderBy createdAt desc` include used by the routes. -/
def Db.recentMessages (db : Db) (userId : Nat) : List MessageRecord :=
  (sortByCreatedDesc (db.messages.filter (fun m => m.userId == userId))).take 10

/-- express-session data for one session: four independently optional fields
(types/index.ts `SessionData`). -/
structure Session where
  userId : Option Nat
  address : Option String
  pendingUserId : Option Nat
  mfaBonusPhrase : Option String
deriving Repr, DecidableEq

/-- The session every request starts from before any auth route ran. -/
def Session.empty : Session :=
  ⟨none, none, none, none⟩

/-- JavaScript truthiness of an optional numeric session field. -/
def truthyNat : Option Nat → Bool
  | none => false
  | some n => n != 0

/-- JavaScript truthiness of an optional string session field. -/
def truthyStr : Option String → Bool
  | none => false
  | some s => s != ""

/-- Process-wide state a request handler can read and write: the database,
the caller's session, and the mutable global otplib options (`window`). -/
structure St where
  db : Db
  session : Session
  window : Nat
deriving Repr, DecidableEq

/-- User object serialized in a response body. -/
structure UserOut where
  id : Nat
  address : String
  role : String
  mfa : Option Bool
deriving Repr, DecidableEq

structure MsgOut where
  id : Nat
  message : String
  signature : String
  signer : String
  valid : Bool
  createdAt : Int
deriving Repr, DecidableEq

def msgOut (m : MessageRecord) : MsgOut :=
  ⟨m.id, m.message, m.signature, m.signer, m.valid, m.createdAt⟩

/-- JSON response envelope of the auth routes; absent fields are `none`.
A plain `res.json` carries HTTP status 200. -/
structure ApiResponse where
  status : Nat
  success : Bool
  error : Option String := none
  mfa : Option Bool := none
  mfaBonusPhraseField : Option String := none
  user : Option UserOut := none
  messages : Option (List MsgOut) := none
  qrCode : Option String := none
  secret : Option String := none
  message : Option String := none
deriving Repr, DecidableEq

/-- An error response `res.status(s).json({error, status, success: false})`. -/
def errResponse (status : Nat) (msg : String) : ApiResponse :=
  { status := status, success := false, error := some msg }

/-! ## Route handlers (auth.ts)

Each handler is a pure function of its request inputs and the process state
`St`, returning the response and the updated state.  The nondeterministic
inputs of a request — the clock (`now` in milliseconds, `currentStep` in
30-second TOTP steps), the random bonus phrase, the external recovery
primitive and the QR renderer — are explicit parameters. -/

/-- Body accepted by `LoginSchema` (all three fields required strings). -/
structure LoginBody where
  message : String
  signature : String
  address : String
deriving Repr, DecidableEq

/-- POST /auth (login handler). -/
def loginHandler (ethersRecover : String → String → Option String)
    (now : Int) (bonusPhrase : String) (body : LoginBody) (st : St) : ApiResponse × St :=
  if body.message != "login" then
    (errResponse 400 "Invalid login message", st)
  else if !(verifySignature ethersRecover body.message body.signature body.address) then
    (errResponse 401 "Invalid signature", st)
  else
    let normalizedAddress := toLowerCase body.address
    let found := st.db.findUserByAddress normalizedAddress
    let user := found.getD ⟨st.db.nextUserId, normalizedAddress, "user"⟩
    let db1 :=
      match found with
      | some _ => st.db
      | none =>
        { st.db with
            users := st.db.users ++ [(⟨st.db.nextUserId, normalizedAddress, "user"⟩ : User)],
            auths := st.db.auths ++ [(⟨st.db.nextUserId, false, false, none⟩ : AuthRecord)],
            nextUserId := st.db.nextUserId + 1 }
    if (db1.findAuthByUserId user.id).elim false (fun a => a.mfa) then
      let db2 := db1.updateAuth user.id
        (fun a => { a with mfaTimeoutTimestamp := some (now + 5 * 60 * 1000) })
      ({ status := 200, success := true, mfa := some true,
         mfaBonusPhraseField := some bonusPhrase },
       { st with db := db2,
                 session := { st.session with pendingUserId := some user.id,
                                              mfaBonusPhrase := some bonusPhrase } })
    else
      ({ status := 200, success := true, mfa := some false,
         user := some ⟨user.id, user.address, user.role, none⟩,
         messages := some ((db1.recentMessages user.id).map msgOut) },
       { st with db := db1,
                 session := { st.session with userId := some user.id,
                                              address := some user.address } })

/-- Body shape submitted to `MFAVerifySchema` (mfa_code required,
mfa_bonus_phrase optional); `none` in `mfaCode` means the field was absent,
making `MFAVerifySchema.parse` throw into the catch-all 500. -/
structure MfaLoginBody where
  mfaCode : Option TotpToken
  mfaBonusPhrase : Option String
deriving Repr, DecidableEq

/-- POST /auth/mfa (complete login with MFA). -/
def completeMfaLoginHandler (salt : String) (now : Int) (currentStep : Int)
    (body : MfaLoginBody) (st : St) : ApiResponse × St :=
  match body.mfaCode with
  | none => (errResponse 500 "MFA authentication failed", st)
  | some code =>
    if !(truthyNat st.session.pendingUserId) || !(truthyStr st.session.mfaBonusPhrase) then
      (errResponse 401 "No pending MFA authentication", st)
    else if body.mfaBonusPhrase != st.session.mfaBonusPhrase then
      (errResponse 401 "Invalid bonus phrase", st)
    else
      let uid := st.session.pendingUserId.getD 0
      match st.db.findUserById uid, st.db.findAuthByUserId uid with
      | some user, some auth =>
        if auth.mfaTimeoutTimestamp.elim false (fun t => decide (t < now)) then
          (errResponse 401 "MFA window expired. Please login again.",
           { st with session := { st.session with pendingUserId := none,
                                                  mfaBonusPhrase := none } })
        else
          let st1 : St := { st with window := 2 }
          if !(totpVerify 2 currentStep code (generateMFASecret salt user.address)) then
            (errResponse 401 "Invalid MFA code", st1)
          else
            ({ status := 200, success := true,
               user := some ⟨user.id, user.address, user.role, some auth.mfa⟩,
               messages := some ((st.db.recentMessages user.id).map msgOut) },
             { st1 with
                 db := st1.db.updateAuth user.id
                   (fun a => { a with mfaTimeoutTimestamp := none }),
                 session := { st.session with userId := some user.id,
                                              address := some user.address,
                                              pendingUserId := none,
                                              mfaBonusPhrase := none } })
      | _, _ => (errResponse 404 "User not found", st)

/-- Body shape submitted to `MFACodeSchema`; `none` in `mfaCode` means the
field was absent, making the parse throw into the catch-all 500. -/
structure MfaCodeBody where
  mfaCode : Option TotpToken
deriving Repr, DecidableEq

/-- POST /auth/mfa/verify (complete MFA enrollment); `requireAuth` runs
first.  The TOTP check uses the prevailing global `window` option. -/
def mfaVerifyHandler (salt : String) (currentStep : Int)
    (body : MfaCodeBody) (st : St) : ApiResponse × St :=
  if !(truthyNat st.session.userId) then
    (errResponse 401 "Authentication required", st)
  else
    match body.mfaCode with
    | none => (errResponse 500 "Failed to verify MFA", st)
    | some code =>
      let uid := st.session.userId.getD 0
      match st.db.findUserById uid, st.db.findAuthByUserId uid with
      | some user, some auth =>
        if !auth.awaitingMfa then
          (errResponse 400 "MFA setup not initiated", st)
        else if !(totpVerify st.window currentStep code (generateMFASecret salt user.address)) then
          (errResponse 401 "Invalid MFA code", st)
        else
          ({ status := 200, success := true, message := some "MFA enabled successfully" },
           { st with db := st.db.updateAuth user.id
                        (fun a => { a with mfa := true, awaitingMfa := false }) })
      | _, _ => (errResponse 404 "User not found", st)

/-- Fields the initialize handler destructures from the untyped `req.body`;
the message may be absent (then the literal check fails). -/
structure MfaInitBody where
  message : Option String
  signature : String
deriving Repr, DecidableEq

/-- Modelled from the spec: `authenticator.keyuri(account, issuer, secret)`
of the external otplib library (provisioning URI construction). -/
def keyuri (account issuer secret : String) : String :=
  "otpauth://totp/" ++ issuer ++ ":" ++ account ++ "?secret=" ++ secret ++ "&issuer=" ++ issuer

/-- POST /auth/mfa/initialize (start MFA enrollment); `requireAuth` runs
first.  `qrRender` stands for the external `QRCode.toDataURL`.  The
self-check token is generated and verified but only logged, never gating.
If the user's auth row is missing, `prisma.auth.update` throws into the
catch-all 500. -/
def mfaInitializeHandler (ethersRecover : String → String → Option String) (salt : String)
    (qrRender : String → String) (currentStep : Int)
    (body : MfaInitBody) (st : St) : ApiResponse × St :=
  if !(truthyNat st.session.userId) then
    (errResponse 401 "Authentication required", st)
  else if body.message != some "enableMFA" then
    (errResponse 400 "Invalid MFA enablement message", st)
  else
    match st.db.findUserById (st.session.userId.getD 0) with
    | none => (errResponse 404 "User not found", st)
    | some user =>
      if !(verifySignature ethersRecover "enableMFA" body.signature user.address) then
        (errResponse 401 "Invalid signature", st)
      else
        let secret := generateMFASecret salt user.address
        let qr := qrRender (keyuri user.address "CAT Web3Signer" secret)
        let selfCheck := totpVerify st.window currentStep (totpGenerate secret currentStep) secret
        match st.db.findAuthByUserId user.id with
        | none => (errResponse 500 "Failed to initialize MFA", st)
        | some _ =>
          let _ := selfCheck
          ({ status := 200, success := true, qrCode := some qr },
           { st with db := st.db.updateAuth user.id (fun a => { a with awaitingMfa := true }) })

/-! ## Theorems -/

theorem getD_mem_of_lt {α : Type} (l : List α) (i : Nat) (d : α) (h : i < l.length) :
    l.getD i d ∈ l := by
  simp [List.getD_eq_getElem?_getD, List.getElem?_eq_getElem h]

theorem length_mk (l : List Char) : (String.mk l).length = l.length := rfl

/-- C8: for every address and salt, deriveSecret (generateMFASecret) produces
a 32-character string over the base32 alphabet A-Z and 2-7, and is invariant
under letter case of the address: deriving from the lower-cased address gives
the same secret, so the same (address, salt) pair always yields the same
secret. -/
theorem generateMFASecret_shape_and_case_invariant (salt address : String) :
    (generateMFASecret salt address).length = 32 ∧
    ((generateMFASecret salt address).data.all (fun c => base32Chars.contains c)) = true ∧
    generateMFASecret salt address = generateMFASecret salt (toLowerCase address) := by
  refine ⟨?_, ?_, ?_⟩
  · unfold generateMFASecret
    rw [length_mk, List.length_map, List.length_range]
  · simp only [generateMFASecret, List.all_eq_true]
    intro c hc
    simp only [List.mem_map, List.mem_range] at hc
    obtain ⟨i, _, hi⟩ := hc
    have hlt : ∀ n : Nat, n % 32 < base32Chars.length := by
      intro n
      have hlen : base32Chars.length = 32 := by decide
      rw [hlen]
      exact Nat.mod_lt _ (by norm_num)
    rw [← hi]
    exact List.elem_eq_true_of_mem (getD_mem_of_lt _ _ _ (hlt _))
  · unfold generateMFASecret
    rw [toLowerCase_idem]

/-- C5: verify returns a boolean and never propagates a failure: when the
recovery primitive fails on a malformed signature, verifySignature returns
false, whereas recoverAddress on the same input propagates a distinct
RecoveryFailed error instead of returning a value. -/
theorem verify_false_vs_recover_error
    (ethersRecover : String → String → Option String)
    (message signature expectedAddress : String)
    (hfail : ethersRecover message signature = none) :
    verifySignature ethersRecover message signature expectedAddress = false ∧
    recoverAddress ethersRecover message signature =
      Except.error "Failed to recover address from signature" := by
  constructor <;> simp [verifySignature, recoverAddress, hfail]

theorem verify_false_vs_recover_error_witness :
    verifySignature (fun _ _ => none) "login" "0xmalformed" "0xabc" = false ∧
    recoverAddress (fun _ _ => none) "login" "0xmalformed" =
      Except.error "Failed to recover address from signature" :=
  verify_false_vs_recover_error (fun _ _ => none) "login" "0xmalformed" "0xabc" rfl

/-- C9: for every call to Login whose message differs from the literal
"login", the handler responds InvalidLoginMessage with status 400 and leaves
the state untouched; the response is the same for every signature, address
and recovery primitive, so no signature recovery is attempted. -/
theorem login_message_literal_gate
    (ethersRecover : String → String → Option String) (now : Int) (bonusPhrase : String)
    (message signature address : String) (st : St)
    (h : message ≠ "login") :
    loginHandler ethersRecover now bonusPhrase ⟨message, signature, address⟩ st =
      (errResponse 400 "Invalid login message", st) := by
  simp [loginHandler, h]

theorem login_message_literal_gate_witness :
    loginHandler (fun _ _ => some "0xabc") 0 "bp" ⟨"hello", "0xsig", "0xabc"⟩
      ⟨⟨[], [], [], 1⟩, Session.empty, 0⟩ =
      (errResponse 400 "Invalid login message", ⟨⟨[], [], [], 1⟩, Session.empty, 0⟩) :=
  login_message_literal_gate (fun _ _ => some "0xabc") 0 "bp" "hello" "0xsig" "0xabc"
    ⟨⟨[], [], [], 1⟩, Session.empty, 0⟩ (by decide)

/-- C6: for every call to Login with the literal message "login" and a
signature that does not verify against the claimed address, the handler
responds InvalidSignature with status 401 and returns the state unchanged,
so no User row and no AuthRecord is created and the session is untouched. -/
theorem login_invalid_signature_atomic
    (ethersRecover : String → String → Option String) (now : Int) (bonusPhrase : String)
    (signature address : String) (st : St)
    (h : verifySignature ethersRecover "login" signature address = false) :
    loginHandler ethersRecover now bonusPhrase ⟨"login", signature, address⟩ st =
      (errResponse 401 "Invalid signature", st) := by
  simp [loginHandler, h]

theorem login_invalid_signature_atomic_witness :
    loginHandler (fun _ _ => none) 0 "bp" ⟨"login", "0xbadsig", "0xabc"⟩
      ⟨⟨[], [], [], 1⟩, Session.empty, 0⟩ =
      (errResponse 401 "Invalid signature", ⟨⟨[], [], [], 1⟩, Session.empty, 0⟩) :=
  login_invalid_signature_atomic (fun _ _ => none) 0 "bp" "0xbadsig" "0xabc"
    ⟨⟨[], [], [], 1⟩, Session.empty, 0⟩ (by decide)

/-- C10: for every session in Pending state, a CompleteMfaLogin request that
carries an mfa_code but omits the optional mfa_bonus_phrase field passes
request validation (it is not the 500 parse-failure path) and is rejected as
InvalidBonusPhrase with status 401, with the state — in particular the
session's pending fields — unchanged, allowing retry. -/
theorem mfa_login_missing_phrase_rejected
    (salt : String) (now currentStep : Int) (tok : TotpToken) (st : St)
    (uid : Nat) (phrase : String)
    (h1 : st.session.pendingUserId = some uid) (h2 : uid ≠ 0)
    (h3 : st.session.mfaBonusPhrase = some phrase) (h4 : phrase ≠ "") :
    completeMfaLoginHandler salt now currentStep ⟨some tok, none⟩ st =
      (errResponse 401 "Invalid bonus phrase", st) := by
  simp [completeMfaLoginHandler, truthyNat, truthyStr, h1, h2, h3, h4]

theorem mfa_login_missing_phrase_rejected_witness :
    completeMfaLoginHandler "salt" 0 0 ⟨some ⟨"S", 0⟩, none⟩
      ⟨⟨[⟨1, "0xabc", "user"⟩], [⟨1, true, false, some 600000⟩], [], 2⟩,
       ⟨none, none, some 1, "phrase"⟩, 0⟩ =
      (errResponse 401 "Invalid bonus phrase",
       ⟨⟨[⟨1, "0xabc", "user"⟩], [⟨1, true, false, some 600000⟩], [], 2⟩,
        ⟨none, none, some 1, "phrase"⟩, 0⟩) :=
  mfa_login_missing_phrase_rejected "salt" 0 0 ⟨"S", 0⟩ _ 1 "phrase" rfl
    (by decide) rfl (by decide)

/-- C7: for every session in Pending state whose AuthRecord's
mfaTimeoutTimestamp is set and earlier than now, CompleteMfaLogin with the
correct bonus phrase and any code responds MfaWindowExpired with status 401
and clears the session's pending fields, so that a subsequent
CompleteMfaLogin on the resulting session (with any body that passes
validation) responds NoPendingMfa with status 401. -/
theorem mfa_window_expiry
    (salt : String) (now now2 currentStep currentStep2 : Int)
    (tok tok2 : TotpToken) (phrase2 : Option String) (st : St)
    (uid : Nat) (phrase : String) (user : User) (auth : AuthRecord) (t : Int)
    (h1 : st.session.pendingUserId = some uid) (h2 : uid ≠ 0)
    (h3 : st.session.mfaBonusPhrase = some phrase) (h4 : phrase ≠ "")
    (h5 : st.db.findUserById uid = some user)
    (h6 : st.db.findAuthByUserId uid = some auth)
    (h7 : auth.mfaTimeoutTimestamp = some t) (h8 : t < now) :
    (completeMfaLoginHandler salt now currentStep ⟨some tok, some phrase⟩ st).1 =
      errResponse 401 "MFA window expired. Please login again." ∧
    (completeMfaLoginHandler salt now currentStep ⟨some tok, some phrase⟩ st).2.session.pendingUserId
      = none ∧
    (completeMfaLoginHandler salt now currentStep ⟨some tok, some phrase⟩ st).2.session.mfaBonusPhrase
      = none ∧
    (completeMfaLoginHandler salt now2 currentStep2 ⟨some tok2, phrase2⟩
      (completeMfaLoginHandler salt now currentStep ⟨some tok, some phrase⟩ st).2).1 =
      errResponse 401 "No pending MFA authentication" := by
  have hrun : completeMfaLoginHandler salt now currentStep ⟨some tok, some phrase⟩ st =
      (errResponse 401 "MFA window expired. Please login again.",
       { st with session := { st.session with pendingUserId := none, mfaBonusPhrase := none } }) := by
    simp [completeMfaLoginHandler, truthyNat, truthyStr, h1, h2, h3, h4, h5, h6, h7, h8]
  rw [hrun]
  refine ⟨rfl, rfl, rfl, ?_⟩
  simp [completeMfaLoginHandler, truthyNat]

theorem mfa_window_expiry_witness :
    (completeMfaLoginHandler "salt" 1000 0 ⟨some ⟨"S", 0⟩, some "phrase"⟩
        ⟨⟨[⟨1, "0xabc", "user"⟩], [⟨1, true, false, some 0⟩], [], 2⟩,
         ⟨none, none, some 1, some "phrase"⟩, 0⟩).1 =
      errResponse 401 "MFA window expired. Please login again." ∧
    (completeMfaLoginHandler "salt" 1000 0 ⟨some ⟨"S", 0⟩, some "phrase"⟩
        ⟨⟨[⟨1, "0xabc", "user"⟩], [⟨1, true, false, some 0⟩], [], 2⟩,
         ⟨none, none, some 1, some "phrase"⟩, 0⟩).2.session.pendingUserId = none ∧
    (completeMfaLoginHandler "salt" 1000 0 ⟨some ⟨"S", 0⟩, some "phrase"⟩
        ⟨⟨[⟨1, "0xabc", "user"⟩], [⟨1, true, false, some 0⟩], [], 2⟩,
         ⟨none, none, some 1, some "phrase"⟩, 0⟩).2.session.mfaBonusPhrase = none ∧
    (completeMfaLoginHandler "salt" 2000 0 ⟨some ⟨"S", 0⟩, some "phrase"⟩
        (completeMfaLoginHandler "salt" 1000 0 ⟨some ⟨"S", 0⟩, some "phrase"⟩
          ⟨⟨[⟨1, "0xabc", "user"⟩], [⟨1, true, false, some 0⟩], [], 2⟩,
           ⟨none, none, some 1, some "phrase"⟩, 0⟩).2).1 =
      errResponse 401 "No pending MFA authentication" :=
  mfa_window_expiry "salt" 1000 2000 0 0 ⟨"S", 0⟩ ⟨"S", 0⟩ (some "phrase")
    ⟨⟨[⟨1, "0xabc", "user"⟩], [⟨1, true, false, some 0⟩], [], 2⟩,
     ⟨none, none, some 1, some "phrase"⟩, 0⟩
    1 "phrase" ⟨1, "0xabc", "user"⟩ ⟨1, true, false, some 0⟩ 0
    rfl (by decide) rfl (by decide) rfl rfl rfl (by decide)

/-- C1 counterexample: on a session that is already Authenticated for the
MFA-enabled user 1, Login's MFA branch stores the pending fields without
clearing the Authenticated fields, so after the operation the session holds
pendingUserId, mfaBonusPhrase, userId and address all at once — refuting the
mutual-exclusion claim. -/
theorem session_exclusion_counterexample :
    ((loginHandler (fun _ _ => some "0xABC") 0 "bp" ⟨"login", "0xsig", "0xabc"⟩
        ⟨⟨[⟨1, "0xabc", "user"⟩], [⟨1, true, false, none⟩], [], 2⟩,
         ⟨some 1, some "0xabc", none, none⟩, 0⟩).2.session.userId = some 1) ∧
    ((loginHandler (fun _ _ => some "0xABC") 0 "bp" ⟨"login", "0xsig", "0xabc"⟩
        ⟨⟨[⟨1, "0xabc", "user"⟩], [⟨1, true, false, none⟩], [], 2⟩,
         ⟨some 1, some "0xabc", none, none⟩, 0⟩).2.session.address = some "0xabc") ∧
    ((loginHandler (fun _ _ => some "0xABC") 0 "bp" ⟨"login", "0xsig", "0xabc"⟩
        ⟨⟨[⟨1, "0xabc", "user"⟩], [⟨1, true, false, none⟩], [], 2⟩,
         ⟨some 1, some "0xabc", none, none⟩, 0⟩).2.session.pendingUserId = some 1) ∧
    ((loginHandler (fun _ _ => some "0xABC") 0 "bp" ⟨"login", "0xsig", "0xabc"⟩
        ⟨⟨[⟨1, "0xabc", "user"⟩], [⟨1, true, false, none⟩], [], 2⟩,
         ⟨some 1, some "0xabc", none, none⟩, 0⟩).2.session.mfaBonusPhrase = some "bp") := by
  decide

/-- C1 amended: the promotion direction holds — whenever CompleteMfaLogin
responds success it leaves the session Authenticated with both pending fields
cleared — but Login's MFA branch stores the pending fields while leaving any
prior Authenticated fields (userId, address) exactly as they were, so a
previously Authenticated session can hold both field groups after Login. -/
theorem session_exclusion_amended :
    (∀ (salt : String) (now currentStep : Int) (body : MfaLoginBody) (st : St),
      (completeMfaLoginHandler salt now currentStep body st).1.success = true →
        (completeMfaLoginHandler salt now currentStep body st).2.session.pendingUserId = none ∧
        (completeMfaLoginHandler salt now currentStep body st).2.session.mfaBonusPhrase = none ∧
        ((completeMfaLoginHandler salt now currentStep body st).2.session.userId).isSome = true ∧
        ((completeMfaLoginHandler salt now currentStep body st).2.session.address).isSome = true) ∧
    (∀ (ethersRecover : String → String → Option String) (now : Int) (bonusPhrase : String)
        (body : LoginBody) (st : St),
      (loginHandler ethersRecover now bonusPhrase body st).1.mfa = some true →
        (loginHandler ethersRecover now bonusPhrase body st).2.session.userId
          = st.session.userId ∧
        (loginHandler ethersRecover now bonusPhrase body st).2.session.address
          = st.session.address ∧
        ((loginHandler ethersRecover now bonusPhrase body st).2.session.pendingUserId).isSome
          = true ∧
        (loginHandler ethersRecover now bonusPhrase body st).2.session.mfaBonusPhrase
          = some bonusPhrase) := by
  constructor
  · intro salt now currentStep body st
    simp only [completeMfaLoginHandler]
    split
    · simp [errResponse]
    · split
      · simp [errResponse]
      · split
        · simp [errResponse]
        · split
          · split
            · simp [errResponse]
            · split
              · simp [errResponse]
              · simp
          · simp [errResponse]
  · intro ethersRecover now bonusPhrase body st
    simp only [loginHandler]
    split
    · simp [errResponse]
    · split
      · simp [errResponse]
      · split
        · simp
        · simp

set_option maxRecDepth 100000 in
theorem session_exclusion_amended_witness :
    ((completeMfaLoginHandler "salt" 0 5
        ⟨some ⟨generateMFASecret "salt" "0xabc", 5⟩, some "phrase"⟩
        ⟨⟨[⟨1, "0xabc", "user"⟩], [⟨1, true, false, none⟩], [], 2⟩,
         ⟨none, none, some 1, some "phrase"⟩, 0⟩).1.success = true) ∧
    ((completeMfaLoginHandler "salt" 0 5
        ⟨some ⟨generateMFASecret "salt" "0xabc", 5⟩, some "phrase"⟩
        ⟨⟨[⟨1, "0xabc", "user"⟩], [⟨1, true, false, none⟩], [], 2⟩,
         ⟨none, none, some 1, some "phrase"⟩, 0⟩).2.session.pendingUserId = none ∧
     (completeMfaLoginHandler "salt" 0 5
        ⟨some ⟨generateMFASecret "salt" "0xabc", 5⟩, some "phrase"⟩
        ⟨⟨[⟨1, "0xabc", "user"⟩], [⟨1, true, false, none⟩], [], 2⟩,
         ⟨none, none, some 1, some "phrase"⟩, 0⟩).2.session.mfaBonusPhrase = none ∧
     ((completeMfaLoginHandler "salt" 0 5
        ⟨some ⟨generateMFASecret "salt" "0xabc", 5⟩, some "phrase"⟩
        ⟨⟨[⟨1, "0xabc", "user"⟩], [⟨1, true, false, none⟩], [], 2⟩,
         ⟨none, none, some 1, some "phrase"⟩, 0⟩).2.session.userId).isSome = true ∧
     ((completeMfaLoginHandler "salt" 0 5
        ⟨some ⟨generateMFASecret "salt" "0xabc", 5⟩, some "phrase"⟩
        ⟨⟨[⟨1, "0xabc", "user"⟩], [⟨1, true, false, none⟩], [], 2⟩,
         ⟨none, none, some 1, some "phrase"⟩, 0⟩).2.session.address).isSome = true) :=
  ⟨by decide,
   session_exclusion_amended.1 "salt" 0 5
     ⟨some ⟨generateMFASecret "salt" "0xabc", 5⟩, some "phrase"⟩
     ⟨⟨[⟨1, "0xabc", "user"⟩], [⟨1, true, false, none⟩], [], 2⟩,
      ⟨none, none, some 1, some "phrase"⟩, 0⟩ (by decide)⟩

/-- C2 counterexample: on the MfaWindowExpired path CompleteMfaLogin removes
the session's pending state but leaves AuthRecord.mfaTimeoutTimestamp
untouched (still the stale non-null past timestamp), refuting the claim that
every pending-state-removing path leaves mfaTimeoutAt null. -/
theorem mfaTimeout_counterexample :
    ((completeMfaLoginHandler "salt" 1000 0 ⟨some ⟨"S", 0⟩, some "phrase"⟩
        ⟨⟨[⟨1, "0xabc", "user"⟩], [⟨1, true, false, some 0⟩], [], 2⟩,
         ⟨none, none, some 1, some "phrase"⟩, 0⟩).1.error =
      some "MFA window expired. Please login again.") ∧
    ((completeMfaLoginHandler "salt" 1000 0 ⟨some ⟨"S", 0⟩, some "phrase"⟩
        ⟨⟨[⟨1, "0xabc", "user"⟩], [⟨1, true, false, some 0⟩], [], 2⟩,
         ⟨none, none, some 1, some "phrase"⟩, 0⟩).2.session.pendingUserId = none) ∧
    ((completeMfaLoginHandler "salt" 1000 0 ⟨some ⟨"S", 0⟩, some "phrase"⟩
        ⟨⟨[⟨1, "0xabc", "user"⟩], [⟨1, true, false, some 0⟩], [], 2⟩,
         ⟨none, none, some 1, some "phrase"⟩, 0⟩).2.session.mfaBonusPhrase = none) ∧
    ((completeMfaLoginHandler "salt" 1000 0 ⟨some ⟨"S", 0⟩, some "phrase"⟩
        ⟨⟨[⟨1, "0xabc", "user"⟩], [⟨1, true, false, some 0⟩], [], 2⟩,
         ⟨none, none, some 1, some "phrase"⟩, 0⟩).2.db.findAuthByUserId 1 =
      some ⟨1, true, false, some 0⟩) := by
  decide

/-- C2 amended: successful CompleteMfaLogin clears mfaTimeoutTimestamp to
null for the pending user, but the MfaWindowExpired path clears only the
session's pending fields and leaves the data store — in particular the stale
non-null mfaTimeoutTimestamp — unchanged. -/
theorem mfaTimeout_amended :
    (∀ (salt : String) (now currentStep : Int) (body : MfaLoginBody) (st : St),
      (completeMfaLoginHandler salt now currentStep body st).1.success = true →
        ∀ a ∈ (completeMfaLoginHandler salt now currentStep body st).2.db.auths,
          a.userId = st.session.pendingUserId.getD 0 → a.mfaTimeoutTimestamp = none) ∧
    (∀ (salt : String) (now currentStep : Int) (body : MfaLoginBody) (st : St),
      (completeMfaLoginHandler salt now currentStep body st).1.error =
          some "MFA window expired. Please login again." →
        (completeMfaLoginHandler salt now currentStep body st).2.db = st.db ∧
        (completeMfaLoginHandler salt now currentStep body st).2.session.pendingUserId = none ∧
        (completeMfaLoginHandler salt now currentStep body st).2.session.mfaBonusPhrase = none) := by
  constructor
  · intro salt now currentStep body st
    simp only [completeMfaLoginHandler]
    split
    · simp [errResponse]
    · split
      · simp [errResponse]
      · split
        · simp [errResponse]
        · split
          · rename_i user auth huser hauth
            split
            · simp [errResponse]
            · split
              · simp [errResponse]
              · intro _ a ha hauid
                have huid : user.id = st.session.pendingUserId.getD 0 := by
                  have := List.find?_some huser
                  simpa using this
                simp only [Db.updateAuth, List.mem_map] at ha
                obtain ⟨a0, ha0, rfl⟩ := ha
                by_cases hcase : (a0.userId == user.id) = true
                · simp [hcase]
                · simp only [hcase] at hauid ⊢
                  simp at hauid
                  simp at hcase
                  omega
          · simp [errResponse]
  · intro salt now currentStep body st
    simp only [completeMfaLoginHandler]
    split
    · simp [errResponse]
    · split
      · simp [errResponse]
      · split
        · simp [errResponse]
        · split
          · split
            · intro _
              exact ⟨rfl, rfl, rfl⟩
            · split
              · simp [errResponse]
              · simp
          · simp [errResponse]

theorem mfaTimeout_amended_witness :
    ((completeMfaLoginHandler "tsalt" 500 0 ⟨some ⟨"T", 3⟩, some "bp2"⟩
        ⟨⟨[⟨4, "0xdef", "user"⟩], [⟨4, true, false, some 100⟩], [], 5⟩,
         ⟨none, none, some 4, some "bp2"⟩, 0⟩).1.error =
      some "MFA window expired. Please login again.") ∧
    ((completeMfaLoginHandler "tsalt" 500 0 ⟨some ⟨"T", 3⟩, some "bp2"⟩
        ⟨⟨[⟨4, "0xdef", "user"⟩], [⟨4, true, false, some 100⟩], [], 5⟩,
         ⟨none, none, some 4, some "bp2"⟩, 0⟩).2.db =
      ⟨[⟨4, "0xdef", "user"⟩], [⟨4, true, false, some 100⟩], [], 5⟩ ∧
     (completeMfaLoginHandler "tsalt" 500 0 ⟨some ⟨"T", 3⟩, some "bp2"⟩
        ⟨⟨[⟨4, "0xdef", "user"⟩], [⟨4, true, false, some 100⟩], [], 5⟩,
         ⟨none, none, some 4, some "bp2"⟩, 0⟩).2.session.pendingUserId = none ∧
     (completeMfaLoginHandler "tsalt" 500 0 ⟨some ⟨"T", 3⟩, some "bp2"⟩
        ⟨⟨[⟨4, "0xdef", "user"⟩], [⟨4, true, false, some 100⟩], [], 5⟩,
         ⟨none, none, some 4, some "bp2"⟩, 0⟩).2.session.mfaBonusPhrase = none) :=
  ⟨by decide,
   mfaTimeout_amended.2 "tsalt" 500 0 ⟨some ⟨"T", 3⟩, some "bp2"⟩
     ⟨⟨[⟨4, "0xdef", "user"⟩], [⟨4, true, false, some 100⟩], [], 5⟩,
      ⟨none, none, some 4, some "bp2"⟩, 0⟩ (by decide)⟩

set_option maxRecDepth 100000 in
/-- C4 counterexample: a fully valid InitializeMfaEnrollment request (an
Authenticated session, the literal message "enableMFA", a signature verifying
against the session user's address) succeeds with a qrCode but the response
carries no secret field, refuting the claim that the response contains both
qrCode and secret. -/
theorem init_secret_counterexample :
    ((mfaInitializeHandler (fun _ _ => some "0xabc") "salt" (fun u => u) 0
        ⟨some "enableMFA", "0xsig"⟩
        ⟨⟨[⟨1, "0xabc", "user"⟩], [⟨1, false, false, none⟩], [], 2⟩,
         ⟨some 1, some "0xabc", none, none⟩, 0⟩).1.success = true) ∧
    (((mfaInitializeHandler (fun _ _ => some "0xabc") "salt" (fun u => u) 0
        ⟨some "enableMFA", "0xsig"⟩
        ⟨⟨[⟨1, "0xabc", "user"⟩], [⟨1, false, false, none⟩], [], 2⟩,
         ⟨some 1, some "0xabc", none, none⟩, 0⟩).1.qrCode).isSome = true) ∧
    ((mfaInitializeHandler (fun _ _ => some "0xabc") "salt" (fun u => u) 0
        ⟨some "enableMFA", "0xsig"⟩
        ⟨⟨[⟨1, "0xabc", "user"⟩], [⟨1, false, false, none⟩], [], 2⟩,
         ⟨some 1, some "0xabc", none, none⟩, 0⟩).1.secret = none) := by
  decide

/-- C4 amended: for every Authenticated session whose request carries the
literal message "enableMFA" and a signature verifying against the session
user's address (and whose user and auth rows exist), the operation responds
success true with the rendered QR code of the provisioning URI for the
derived secret, but the response includes no secret field. -/
theorem init_response_amended
    (ethersRecover : String → String → Option String) (salt : String)
    (qrRender : String → String) (currentStep : Int) (body : MfaInitBody) (st : St)
    (uid : Nat) (user : User) (auth : AuthRecord)
    (h1 : st.session.userId = some uid) (h2 : uid ≠ 0)
    (h3 : body.message = some "enableMFA")
    (h4 : st.db.findUserById uid = some user)
    (h5 : verifySignature ethersRecover "enableMFA" body.signature user.address = true)
    (h6 : st.db.findAuthByUserId user.id = some auth) :
    (mfaInitializeHandler ethersRecover salt qrRender currentStep body st).1 =
      { status := 200, success := true,
        qrCode := some (qrRender (keyuri user.address "CAT Web3Signer"
          (generateMFASecret salt user.address))) } := by
  simp [mfaInitializeHandler, truthyNat, h1, h2, h3, h4, h5, h6]

set_option maxRecDepth 100000 in
theorem init_response_amended_witness :
    (mfaInitializeHandler (fun _ _ => some "0xDeF") "wsalt" (fun u => u ++ "#qr") 7
        ⟨some "enableMFA", "0xsig2"⟩
        ⟨⟨[⟨2, "0xdef", "user"⟩], [⟨2, false, false, none⟩], [], 3⟩,
         ⟨some 2, some "0xdef", none, none⟩, 0⟩).1 =
      { status := 200, success := true,
        qrCode := some ((keyuri "0xdef" "CAT Web3Signer"
          (generateMFASecret "wsalt" "0xdef")) ++ "#qr") } :=
  init_response_amended (fun _ _ => some "0xDeF") "wsalt" (fun u => u ++ "#qr") 7
    ⟨some "enableMFA", "0xsig2"⟩
    ⟨⟨[⟨2, "0xdef", "user"⟩], [⟨2, false, false, none⟩], [], 3⟩,
     ⟨some 2, some "0xdef", none, none⟩, 0⟩
    2 ⟨2, "0xdef", "user"⟩ ⟨2, false, false, none⟩
    rfl (by decide) rfl rfl (by decide) rfl

set_option maxRecDepth 100000 in
/-- C3 counterexample: in a fresh process (global otplib options still at the
default window 0), CompleteMfaEnrollment rejects a code generated from the
correct derived secret one 30-second step earlier — refuting the claim that
both operations accept codes within plus or minus 2 steps regardless of
process history. -/
theorem totp_window_counterexample :
    (mfaVerifyHandler "salt" 100 ⟨some ⟨generateMFASecret "salt" "0xabc", 99⟩⟩
        ⟨⟨[⟨1, "0xabc", "user"⟩], [⟨1, false, true, none⟩], [], 2⟩,
         ⟨some 1, some "0xabc", none, none⟩, defaultAuthenticatorWindow⟩).1 =
      errResponse 401 "Invalid MFA code" := by
  decide

/-- C3 amended: CompleteMfaLogin itself assigns the global otplib window to 2
and accepts every code generated from the correct derived secret within plus
or minus 2 steps of the current step; CompleteMfaEnrollment instead verifies
with the prevailing global window — 0 at process start, 2 after any
CompleteMfaLogin has run — so its acceptance of adjacent-step codes depends
on which operations ran earlier in the process's lifetime. -/
theorem totp_window_amended :
    (∀ (salt : String) (now currentStep genStep : Int) (phrase : String) (st : St)
        (uid : Nat) (user : User) (auth : AuthRecord),
      st.session.pendingUserId = some uid → uid ≠ 0 →
      st.session.mfaBonusPhrase = some phrase → phrase ≠ "" →
      st.db.findUserById uid = some user →
      st.db.findAuthByUserId uid = some auth →
      auth.mfaTimeoutTimestamp.elim false (fun t => decide (t < now)) = false →
      (currentStep - genStep).natAbs ≤ 2 →
      (completeMfaLoginHandler salt now currentStep
          ⟨some (totpGenerate (generateMFASecret salt user.address) genStep), some phrase⟩
          st).1.success = true ∧
      (completeMfaLoginHandler salt now currentStep
          ⟨some (totpGenerate (generateMFASecret salt user.address) genStep), some phrase⟩
          st).2.window = 2) ∧
    (∀ (salt : String) (currentStep genStep : Int) (st : St)
        (uid : Nat) (user : User) (auth : AuthRecord),
      st.session.userId = some uid → uid ≠ 0 →
      st.db.findUserById uid = some user →
      st.db.findAuthByUserId uid = some auth →
      auth.awaitingMfa = true →
      ((mfaVerifyHandler salt currentStep
          ⟨some (totpGenerate (generateMFASecret salt user.address) genStep)⟩ st).1.success = true
        ↔ (currentStep - genStep).natAbs ≤ st.window)) := by
  constructor
  · intro salt now currentStep genStep phrase st uid user auth h1 h2 h3 h4 h5 h6 h7 h8
    simp [completeMfaLoginHandler, truthyNat, truthyStr, totpGenerate, totpVerify,
          h1, h2, h3, h4, h5, h6, h7, h8]
  · intro salt currentStep genStep st uid user auth h1 h2 h3 h4 h5
    by_cases hw : (currentStep - genStep).natAbs ≤ st.window
    · simp [mfaVerifyHandler, truthyNat, totpGenerate, totpVerify, errResponse,
            h1, h2, h3, h4, h5, hw]
    · simp [mfaVerifyHandler, truthyNat, totpGenerate, totpVerify, errResponse,
            h1, h2, h3, h4, h5, hw]

set_option maxRecDepth 100000 in
theorem totp_window_amended_witness :
    ((completeMfaLoginHandler "asalt" 50 10
        ⟨some (totpGenerate (generateMFASecret "asalt" "0xaaa") 8), some "bphr"⟩
        ⟨⟨[⟨3, "0xaaa", "user"⟩], [⟨3, true, false, none⟩], [], 4⟩,
         ⟨none, none, some 3, some "bphr"⟩, 0⟩).1.success = true ∧
     (completeMfaLoginHandler "asalt" 50 10
        ⟨some (totpGenerate (generateMFASecret "asalt" "0xaaa") 8), some "bphr"⟩
        ⟨⟨[⟨3, "0xaaa", "user"⟩], [⟨3, true, false, none⟩], [], 4⟩,
         ⟨none, none, some 3, some "bphr"⟩, 0⟩).2.window = 2) ∧
    ((mfaVerifyHandler "asalt" 10
        ⟨some (totpGenerate (generateMFASecret "asalt" "0xaaa") 9)⟩
        ⟨⟨[⟨3, "0xaaa", "user"⟩], [⟨3, false, true, none⟩], [], 4⟩,
         ⟨some 3, some "0xaaa", none, none⟩, 0⟩).1.success = true
      ↔ (10 - (9 : Int)).natAbs ≤ 0) :=
  ⟨totp_window_amended.1 "asalt" 50 10 8 "bphr"
     ⟨⟨[⟨3, "0xaaa", "user"⟩], [⟨3, true, false, none⟩], [], 4⟩,
      ⟨none, none, some 3, some "bphr"⟩, 0⟩
     3 ⟨3, "0xaaa", "user"⟩ ⟨3, true, false, none⟩
     rfl (by decide) rfl (by decide) rfl rfl rfl (by decide),
   totp_window_amended.2 "asalt" 10 9
     ⟨⟨[⟨3, "0xaaa", "user"⟩], [⟨3, false, true, none⟩], [], 4⟩,
      ⟨some 3, some "0xaaa", none, none⟩, 0⟩
     3 ⟨3, "0xaaa", "user"⟩ ⟨3, false, true, none⟩
     rfl (by decide) rfl rfl rfl⟩

end Web3Signer
